import Mathlib

/-!
Verification of the CMS DRG grouper batch-interface codec.

The Python source serializes patient-encounter records into a fixed-width
835-byte flat-text record and decodes the grouper's fixed-width output line.
We embed the relevant parts shallowly: Python strings become `List Char`,
Python `int` becomes `Int`/`Nat`, fallible constructors become `Option`.
Definitions follow `src/batch_field.py`, `src/record.py`, `src/batch.py`
and `src/value_container.py`; members of the repository that are referenced
but not present in the source tree (the `field_literal` enumerations,
`Date.from_string`, `Diagnosis.extract_from_output`) are modelled from the
specification and carry a doc comment saying so.
-/

namespace CMSDRG

/-- A Python `str`, modelled as a list of characters. -/
abbrev PyStr := List Char

/-- Python `char.isalnum()` restricted to the ASCII letters and digits the
fixed-width format carries. -/
def pyIsAlnum (c : Char) : Bool := c.isAlpha || c.isDigit

/-- Python `char.isspace()` for the standard ASCII whitespace characters. -/
def pyIsSpace (c : Char) : Bool :=
  c == ' ' || c == '\t' || c == '\n' || c == '\r' || c == '\x0b' || c == '\x0c'

/-- `src/batch_field.py::is_alphanumeric_or_space`: true iff every character
is alphanumeric or whitespace (vacuously true on the empty string). -/
def is_alphanumeric_or_space (s : PyStr) : Bool :=
  s.all (fun c => pyIsAlnum c || pyIsSpace c)

/-- Python `str.isalnum()`: nonempty and every character alphanumeric. -/
def pyStrIsAlnum (s : PyStr) : Bool := !s.isEmpty && s.all pyIsAlnum

/-- Python `s.ljust(w)`: pad on the right with blanks up to width `w`
(no truncation). -/
def pyLjust (s : PyStr) (w : Nat) : PyStr := s ++ List.replicate (w - s.length) ' '

/-- Python `s.zfill(w)`: pad with leading zeros up to width `w`, keeping a
leading minus sign in front of the padding (no truncation). -/
def pyZfill (s : PyStr) (w : Nat) : PyStr :=
  match s with
  | '-' :: rest => '-' :: (List.replicate (w - s.length) '0' ++ rest)
  | _ => List.replicate (w - s.length) '0' ++ s

/-- Python slice `s[a:b]` (for `0 ≤ a ≤ b`). -/
def pySlice (s : PyStr) (a b : Nat) : PyStr := (s.take b).drop a

/-- Python `s.strip()`: remove leading and trailing whitespace. -/
def pyStrip (s : PyStr) : PyStr :=
  ((s.dropWhile pyIsSpace).reverse.dropWhile pyIsSpace).reverse

/-- Decimal digits of `n`, most significant first, via a structurally
decreasing fuel argument (`fuel > number of divisions` suffices). -/
def natDigitsAux : Nat → Nat → PyStr
  | 0, _ => []
  | fuel + 1, n =>
    if n < 10 then [Nat.digitChar n]
    else natDigitsAux fuel (n / 10) ++ [Nat.digitChar (n % 10)]

/-- Python `str(n)` for a natural number. -/
def natDigits (n : Nat) : PyStr := natDigitsAux (n + 1) n

/-- Python `str(i)` for an `int`. -/
def intRepr (i : Int) : PyStr :=
  if i < 0 then '-' :: natDigits i.natAbs else natDigits i.toNat

/- ### Value types (`src/value_container.py`) -/

/-- `value_container.remove_decimal`: strip every `.` from an ICD code. -/
def remove_decimal (s : PyStr) : PyStr := s.filter (fun c => c ≠ '.')

/-- A present date value, as held by `value_container.Date` (which wraps an
optional `datetime.date`). -/
structure DateVal where
  month : Nat
  day : Nat
  year : Nat
deriving DecidableEq

/-- `value_container.Date`: an optional calendar date (`none` = blank). -/
abbrev Date := Option DateVal

/-- The `mm/dd/yyyy` domain: the validity `datetime.date` enforces, restricted
to the four-digit years the 10-byte layout (and the spec's `mm/dd/yyyy`
format) can carry. -/
def DateVal.wfB (d : DateVal) : Bool :=
  1 ≤ d.month && d.month ≤ 12 && 1 ≤ d.day && d.day ≤ 31
    && 1000 ≤ d.year && d.year ≤ 9999

def dateWfB : Date → Bool
  | none => true
  | some d => d.wfB

/-- `value_container.Date.__str__`: `strftime("%m/%d/%Y")` when a date is
present (two-digit zero-filled month and day, four-digit year), else ten
blanks. -/
def dateStr : Date → PyStr
  | none => List.replicate 10 ' '
  | some d =>
    pyZfill (natDigits d.month) 2 ++ '/' ::
      (pyZfill (natDigits d.day) 2 ++ '/' :: pyZfill (natDigits d.year) 4)

/-- Modelled from the spec: `Date.from_string` is called throughout
`src/batch_field.py` and the tests but is absent from the source tree.
Spec §4.1: "accepts `mm/dd/yyyy`; fails with `FormatError` on non-conforming
strings; a fully-blank input maps to no date without error."  `none` is the
parse failure; `some none` is the blank/absent date. -/
def dateFromString (s : PyStr) : Option Date :=
  if s ≠ [] && s.all (fun c => c = ' ') then some none
  else
    match s with
    | [m1, m2, '/', d1, d2, '/', y1, y2, y3, y4] =>
      if [m1, m2, d1, d2, y1, y2, y3, y4].all Char.isDigit then
        let m := 10 * (m1.toNat - '0'.toNat) + (m2.toNat - '0'.toNat)
        let d := 10 * (d1.toNat - '0'.toNat) + (d2.toNat - '0'.toNat)
        let y := 1000 * (y1.toNat - '0'.toNat) + 100 * (y2.toNat - '0'.toNat)
          + 10 * (y3.toNat - '0'.toNat) + (y4.toNat - '0'.toNat)
        if DateVal.wfB ⟨m, d, y⟩ then some (some ⟨m, d, y⟩) else none
      else none
    | _ => none

/-- `value_container.DiagnosisCode.__init__`: empty input is stored as the
empty code; otherwise the decimal point is stripped and the result must be
nonempty alphanumeric (`str.isalnum`), else `ValueError`.  The stored code
is returned; note that no maximum length is enforced. -/
def mkDiagnosisCode (s : PyStr) : Option PyStr :=
  if s.isEmpty then some []
  else
    let c := remove_decimal s
    if pyStrIsAlnum c then some c else none

/-- `value_container.DiagnosisCode.__str__`: `code.ljust(7)` (no truncation). -/
def diagnosisCodeStr (code : PyStr) : PyStr := pyLjust code 7

/-- `value_container.ProcedureCode.__init__`: same contract as
`DiagnosisCode` (strip `.`, require `isalnum`, no length bound). -/
def mkProcedureCode (s : PyStr) : Option PyStr :=
  if s.isEmpty then some []
  else
    let c := remove_decimal s
    if pyStrIsAlnum c then some c else none

/-- `value_container.ProcedureCode.__str__`: seven blanks when unset, else
`ljust(7)` (no truncation). -/
def procedureCodeStr (code : PyStr) : PyStr :=
  if code.isEmpty then List.replicate 7 ' ' else pyLjust code 7

/-- Modelled from the spec: `field_literal.PresentOnAdmissionValue` is not in
the source tree.  Spec §3: a POA literal is a closed set of codes whose
serialized form is the 1-byte flag of the 8-byte diagnosis slot, with a
designated blank "no POA" sentinel.  We carry the serialized character. -/
structure PresentOnAdmissionValue where
  poaChar : Char
deriving DecidableEq

/-- `value_container.Diagnosis`: a diagnosis code with its POA indicator. -/
structure Diagnosis where
  code : PyStr
  poa : PresentOnAdmissionValue
deriving DecidableEq

/-- `Diagnosis()` default: empty code and the "no POA" sentinel (spec §4.1),
whose serialized flag byte is a blank. -/
def defaultDiagnosis : Diagnosis := ⟨[], ⟨' '⟩⟩

/-- `value_container.Diagnosis.__str__`: `str(code) + str(poa.value)`. -/
def diagnosisStr (d : Diagnosis) : PyStr := diagnosisCodeStr d.code ++ [d.poa.poaChar]

/-- Modelled from the spec: `Diagnosis.extract_from_output` is called by
`src/batch_field.py` but is absent from the source tree.  Spec §3/§4.2: an
8-byte diagnosis slot is a 7-byte left-justified blank-filled code followed
by a 1-byte POA flag; decoding strips the code's padding. -/
def diagnosisExtractFromOutput (s : PyStr) : Diagnosis :=
  ⟨pyStrip (pySlice s 0 7), ⟨(pySlice s 7 8).headD ' '⟩⟩

/- ### Literal enumerations (`src/field_literal.py`, absent from the tree) -/

/-- Modelled from the spec: `field_literal.DischargeDispositionValue` is not
in the source tree.  Spec §3: a closed mapping of UB-04 discharge-status
codes; the serialized slot is a 2-byte zero-filled numeric code, so valid
codes fit in two digits. -/
structure DischargeDispositionValue where
  code : Nat
deriving DecidableEq

/-- Modelled from the spec: `field_literal.PayerValue`; closed set of 2-digit
primary-payer codes (spec §6 table: 2 bytes, zero-filled). -/
structure PayerValue where
  code : Nat
deriving DecidableEq

/-- Modelled from the spec: `field_literal.SexValue`; closed set of 1-digit
numeric sex codes (spec §6 table: 1 byte). -/
structure SexValue where
  code : Nat
deriving DecidableEq

/-- Modelled from the spec: `field_literal.ApplyHACLogicValue`; the 1-byte
flag `'X'` (POA-exempt) or `'Z'` (requires POA reporting). -/
structure ApplyHACLogicValue where
  flag : Char
deriving DecidableEq

def DischargeDispositionValue.wfB (v : DischargeDispositionValue) : Bool := v.code ≤ 99
def PayerValue.wfB (v : PayerValue) : Bool := v.code ≤ 99
def SexValue.wfB (v : SexValue) : Bool := v.code ≤ 9
def ApplyHACLogicValue.wfB (v : ApplyHACLogicValue) : Bool :=
  v.flag == 'X' || v.flag == 'Z'

/- ### Input fields (`src/batch_field.py`) -/

/-- `PatientName.__init__`: accept iff `is_alphanumeric_or_space`; the value
is stored unmodified. -/
def mkPatientName (s : PyStr) : Option PyStr :=
  if is_alphanumeric_or_space s then some s else none

/-- `PatientName.__str__`: `value[:31].ljust(31)`. -/
def patientNameStr (v : PyStr) : PyStr := pyLjust (v.take 31) 31

/-- `MedicalRecordNumber.__init__`: accept iff `value.isalnum()` (which
rejects spaces and the empty string); stored unmodified. -/
def mkMedicalRecordNumber (s : PyStr) : Option PyStr :=
  if pyStrIsAlnum s then some s else none

/-- `MedicalRecordNumber.__str__`: `value[:13].ljust(13)`. -/
def medicalRecordNumberStr (v : PyStr) : PyStr := pyLjust (v.take 13) 13

/-- `AccountNumber.__init__`: accept iff `value.isalnum()`. -/
def mkAccountNumber (s : PyStr) : Option PyStr :=
  if pyStrIsAlnum s then some s else none

/-- `AccountNumber.__str__`: `value[:17].ljust(17)`. -/
def accountNumberStr (v : PyStr) : PyStr := pyLjust (v.take 17) 17

/-- `DischargeStatus.__str__`: `str(value.value).zfill(2)`. -/
def dischargeStatusStr (v : DischargeDispositionValue) : PyStr :=
  pyZfill (natDigits v.code) 2

/-- `PrimaryPayer.__str__`: `str(value.value).zfill(2)`. -/
def primaryPayerStr (v : PayerValue) : PyStr := pyZfill (natDigits v.code) 2

/-- `LOS.__init__`: raise unless `min_days = 0 ≤ value ≤ max_days = 45291`. -/
def mkLOS (v : Int) : Option Int :=
  if v < 0 || 45291 < v then none else some v

/-- `LOS.__str__`: `str(value).zfill(5)`. -/
def losStr (v : Int) : PyStr := pyZfill (intRepr v) 5

/-- `Age.__init__`: raise unless `0 ≤ value ≤ 124`. -/
def mkAge (v : Int) : Option Int :=
  if v < 0 || 124 < v then none else some v

/-- `Age.__str__`: `str(value).zfill(3)`. -/
def ageStr (v : Int) : PyStr := pyZfill (intRepr v) 3

/-- `Sex.__str__`: `str(value.value)`. -/
def sexStr (v : SexValue) : PyStr := natDigits v.code

/-- `AdmitDiagnosis.__str__`: `str(value)` of the stored `DiagnosisCode`. -/
def admitDiagnosisStr (code : PyStr) : PyStr := diagnosisCodeStr code

/-- `PrincipalDiagnosis.__str__`: `str(value)` of the stored `Diagnosis`. -/
def principalDiagnosisStr (d : Diagnosis) : PyStr := diagnosisStr d

/-- `SecondaryDiagnoses.__init__`: a deque of 24 default diagnoses whose
first `min(len(value), 24)` slots are overwritten by the argument. -/
def secondaryDiagnosesVal (l : List Diagnosis) : List Diagnosis :=
  l.take 24 ++ List.replicate (24 - l.length) defaultDiagnosis

/-- `SecondaryDiagnoses.__str__`: concatenation of the 24 slot strings. -/
def secondaryDiagnosesStr (stored : List Diagnosis) : PyStr :=
  (stored.map diagnosisStr).flatten

/-- `SecondaryDiagnoses.parse_field_string`: slice the 192-byte group into 24
8-byte slots and decode every one of them (the loop has no break). -/
def secondaryDiagnosesParse (s : PyStr) : List Diagnosis :=
  (List.range 24).map (fun i => diagnosisExtractFromOutput (pySlice s (8 * i) (8 * i + 8)))

/-- `PrincipalProcedure.__str__`. -/
def principalProcedureStr (code : PyStr) : PyStr := procedureCodeStr code

/-- `SecondaryProcedures.__init__`: 24 default procedure codes, first slots
overwritten. -/
def secondaryProceduresVal (l : List PyStr) : List PyStr :=
  l.take 24 ++ List.replicate (24 - l.length) []

/-- `SecondaryProcedures.__str__`. -/
def secondaryProceduresStr (stored : List PyStr) : PyStr :=
  (stored.map procedureCodeStr).flatten

/-- `ProcedureDates.__init__`: 25 blank dates, first slots overwritten. -/
def procedureDatesVal (l : List Date) : List Date :=
  l.take 25 ++ List.replicate (25 - l.length) none

/-- `ProcedureDates.__str__`. -/
def procedureDatesStr (stored : List Date) : PyStr :=
  (stored.map dateStr).flatten

/-- `ApplyHACLogic.__str__`: the single flag character. -/
def applyHACLogicStr (v : ApplyHACLogicValue) : PyStr := [v.flag]

/-- `UNUSED.__str__`: `"".ljust(1)`. -/
def unusedStr : PyStr := pyLjust [] 1

/-- `OptionalInformation.__str__`: `value[:72].ljust(72)` (any string is
accepted by its constructor). -/
def optionalInformationStr (v : PyStr) : PyStr := pyLjust (v.take 72) 72

/-- `Filler.__str__`: `"".ljust(25)`. -/
def fillerStr : PyStr := pyLjust [] 25

/- ### Input record (`src/record.py::InputRecord`) -/

/-- The 21 fields of an `InputRecord`, holding each field's stored value
(`unused`, and `filler` are constants; `optional_information` defaults to
the empty string). -/
structure InputRecord where
  patient_name : PyStr
  medical_record_number : PyStr
  account_number : PyStr
  admit_date : Date
  discharge_date : Date
  discharge_status : DischargeDispositionValue
  primary_payer : PayerValue
  los : Int
  birth_date : Date
  age : Int
  sex : SexValue
  admit_diagnosis : PyStr
  principal_diagnosis : Diagnosis
  secondary_diagnoses : List Diagnosis
  principal_procedure : PyStr
  secondary_procedures : List PyStr
  procedure_date : List Date
  apply_hac_logic : ApplyHACLogicValue
  optional_information : PyStr

/-- `InputRecord.__str__`: concatenation of all 21 field serializations in
declaration order. -/
def inputRecordStr (r : InputRecord) : PyStr :=
  patientNameStr r.patient_name
    ++ medicalRecordNumberStr r.medical_record_number
    ++ accountNumberStr r.account_number
    ++ dateStr r.admit_date
    ++ dateStr r.discharge_date
    ++ dischargeStatusStr r.discharge_status
    ++ primaryPayerStr r.primary_payer
    ++ losStr r.los
    ++ dateStr r.birth_date
    ++ ageStr r.age
    ++ sexStr r.sex
    ++ admitDiagnosisStr r.admit_diagnosis
    ++ principalDiagnosisStr r.principal_diagnosis
    ++ secondaryDiagnosesStr (secondaryDiagnosesVal r.secondary_diagnoses)
    ++ principalProcedureStr r.principal_procedure
    ++ secondaryProceduresStr (secondaryProceduresVal r.secondary_procedures)
    ++ procedureDatesStr (procedureDatesVal r.procedure_date)
    ++ applyHACLogicStr r.apply_hac_logic
    ++ unusedStr
    ++ optionalInformationStr r.optional_information
    ++ fillerStr

/-- The stored code of a successfully constructed `DiagnosisCode` /
`ProcedureCode` is alphanumeric (or empty). -/
def codeValidB (code : PyStr) : Bool := code.all pyIsAlnum

def diagnosisValidB (d : Diagnosis) : Bool := codeValidB d.code

/-- The facts the field constructors validate (or, for the spec-modelled
literal enumerations and dates, membership in their closed value sets):
exactly the "values that pass their constructors' validation". -/
def InputRecord.validB (r : InputRecord) : Bool :=
  is_alphanumeric_or_space r.patient_name
    && pyStrIsAlnum r.medical_record_number
    && pyStrIsAlnum r.account_number
    && dateWfB r.admit_date
    && dateWfB r.discharge_date
    && r.discharge_status.wfB
    && r.primary_payer.wfB
    && (0 ≤ r.los && r.los ≤ 45291)
    && dateWfB r.birth_date
    && (0 ≤ r.age && r.age ≤ 124)
    && r.sex.wfB
    && codeValidB r.admit_diagnosis
    && diagnosisValidB r.principal_diagnosis
    && r.secondary_diagnoses.all diagnosisValidB
    && codeValidB r.principal_procedure
    && r.secondary_procedures.all codeValidB
    && r.procedure_date.all dateWfB
    && r.apply_hac_logic.wfB

/-- The additional bound the constructors do NOT check: every diagnosis and
procedure code fits its 7-byte slot. -/
def InputRecord.codesFitB (r : InputRecord) : Bool :=
  r.admit_diagnosis.length ≤ 7
    && r.principal_diagnosis.code.length ≤ 7
    && r.secondary_diagnoses.all (fun d => d.code.length ≤ 7)
    && r.principal_procedure.length ≤ 7
    && r.secondary_procedures.all (fun c => c.length ≤ 7)

/- ### Batch (`src/batch.py::Batch.__str__`, identical in
`src/cms_drg_grouper_interface/batch.py`) -/

/-- `Batch.__str__`: `"\n".join(map(str, records))`. -/
def batchStr (records : List InputRecord) : PyStr :=
  List.intercalate ['\n'] (records.map inputRecordStr)

/- ### Repeating-group decoding (`src/batch_field.py::parse_field_substring`) -/

/-- The loop body of `parse_field_substring`: one recursive step per
remaining iteration, carrying the current position and the accumulated
values.  On a break value: if nothing has been collected yet the sentinel
itself is appended, then the loop stops and the collection is returned. -/
def parseFieldSubstringAux {α : Type} (substr : PyStr) (field_len : Nat)
    (break_values : List PyStr) (value_literal : PyStr → α) :
    Nat → Nat → List α → List α
  | 0, _, acc => acc
  | k + 1, position, acc =>
    let value := pySlice substr position (position + field_len)
    if value ∈ break_values then
      if acc.isEmpty then acc ++ [value_literal value] else acc
    else
      parseFieldSubstringAux substr field_len break_values value_literal
        k (position + field_len) (acc ++ [value_literal value])

/-- `src/batch_field.py::parse_field_substring`: decode `n_fields` sub-slots
of `field_len` bytes each, stopping at the first break value. -/
def parse_field_substring {α : Type} (substr : PyStr) (n_fields field_len : Nat)
    (break_values : List PyStr) (value_literal : PyStr → α) : List α :=
  parseFieldSubstringAux substr field_len break_values value_literal n_fields 0 []

/- ### Cost weight (`src/batch_field.py::CostWeight.parse_field_string`) -/

/-- Numeric value of a digit string. -/
def digitsVal (ds : PyStr) : Nat :=
  ds.foldl (fun a c => 10 * a + (c.toNat - '0'.toNat)) 0

/-- Scanner for Python `float(s)` on the finite decimal strings the 7-byte
cost-weight slot can carry: optional surrounding blanks and sign, an integer
digit run, and an optional fractional part after an explicit decimal point.
Returns the scaled mantissa and the number of fractional digits. -/
def pyFloatScan (s : PyStr) : Option (Int × Nat) :=
  let t := pyStrip s
  let sign : Int := if t.head? = some '-' then -1 else 1
  let u := if t.head? = some '-' || t.head? = some '+' then t.tail else t
  let ip := u.takeWhile Char.isDigit
  let rest := u.dropWhile Char.isDigit
  match rest with
  | [] => if ip.isEmpty then none else some (sign * digitsVal ip, 0)
  | '.' :: fr =>
    if fr.all Char.isDigit && !(ip.isEmpty && fr.isEmpty) then
      some (sign * (digitsVal ip * 10 ^ fr.length + digitsVal fr), fr.length)
    else none
  | _ => none

/-- The rational value of a scanned decimal: `mantissa / 10 ^ fracDigits`. -/
def ratOfScan (p : Int × Nat) : ℚ := (p.1 : ℚ) / (10 : ℚ) ^ p.2

/-- Python `float(s)` as an exact rational. -/
def pyFloatParse (s : PyStr) : Option ℚ := (pyFloatScan s).map ratOfScan

/-- `CostWeight.parse_field_string`: `float(field_str)` on the raw 7-byte
slice. -/
def costWeightParse (s : PyStr) : Option ℚ := pyFloatParse s

/- ### Concrete records (from `tests/conftest.py`'s example fixture) -/

/-- The example record of `tests/conftest.py`, with every constructor-level
validation satisfied and every code within its 7-byte slot. -/
def exampleRecord : InputRecord where
  patient_name := "Jonathan Gupton".toList
  medical_record_number := "1234567".toList
  account_number := "0987654321".toList
  admit_date := some ⟨8, 1, 2022⟩
  discharge_date := some ⟨8, 9, 2022⟩
  discharge_status := ⟨1⟩
  primary_payer := ⟨5⟩
  los := 8
  birth_date := some ⟨6, 19, 1980⟩
  age := 35
  sex := ⟨1⟩
  admit_diagnosis := "J189".toList
  principal_diagnosis := ⟨"J189".toList, ⟨'Y'⟩⟩
  secondary_diagnoses := [⟨"E43".toList, ⟨'Y'⟩⟩]
  principal_procedure := "5A1955Z".toList
  secondary_procedures := []
  procedure_date := [some ⟨8, 1, 2022⟩]
  apply_hac_logic := ⟨'Z'⟩
  optional_information := []

/-- The example record with an 8-character admit-diagnosis code: every
character is alphanumeric, so `DiagnosisCode.__init__` accepts it, yet its
serialization overflows the 7-byte slot. -/
def overlongCodeRecord : InputRecord :=
  { exampleRecord with admit_diagnosis := "A1234567".toList }

/-- A 192-byte secondary-diagnoses group: slots 0–2 hold diagnoses, slot 3
(and the rest) are all-blank break sentinels. -/
def blankSlot3Group : PyStr :=
  "J189   YE43    YI10    Y".toList ++ List.replicate 168 ' '

/-- The truncation/padding behaviour claimed for the free-text fields: the
serialization is exactly the field width, formed by keeping the first
`width` characters and blank-filling on the right; plus the fact that
`PatientName` accepts the input unmodified. -/
def truncationSpec (s : PyStr) : Prop :=
  mkPatientName s = some s
    ∧ (patientNameStr s).length = 31
    ∧ patientNameStr s = s.take 31 ++ List.replicate (31 - s.length) ' '
    ∧ (accountNumberStr s).length = 17
    ∧ accountNumberStr s = s.take 17 ++ List.replicate (17 - s.length) ' '
    ∧ (optionalInformationStr s).length = 72
    ∧ optionalInformationStr s = s.take 72 ++ List.replicate (72 - s.length) ' '

/- ### Basic length lemmas -/

theorem pyLjust_length (s : PyStr) (w : Nat) :
    (pyLjust s w).length = max s.length w := by
  simp [pyLjust]; omega

theorem pyLjust_length_of_le {s : PyStr} {w : Nat} (h : s.length ≤ w) :
    (pyLjust s w).length = w := by
  rw [pyLjust_length]; omega

theorem pyZfill_length (s : PyStr) (w : Nat) :
    (pyZfill s w).length = max s.length w := by
  unfold pyZfill
  split <;> simp_all <;> omega

theorem pyZfill_length_of_le {s : PyStr} {w : Nat} (h : s.length ≤ w) :
    (pyZfill s w).length = w := by
  rw [pyZfill_length]; omega

theorem natDigitsAux_length_le (k : Nat) :
    ∀ fuel n, n < 10 ^ k → 1 ≤ k → n < fuel → (natDigitsAux fuel n).length ≤ k := by
  induction k with
  | zero => intro fuel n _ hk _; omega
  | succ k ih =>
    intro fuel n hn _ hfuel
    match fuel with
    | 0 => omega
    | fuel + 1 =>
      unfold natDigitsAux
      split
      · simp
      · rename_i hge
        have h10 : 10 ≤ n := by omega
        have hk1 : 1 ≤ k := by
          by_contra hc
          have : k = 0 := by omega
          subst this
          simp [pow_succ] at hn
          omega
        have hdiv : n / 10 < 10 ^ k := by
          apply Nat.div_lt_of_lt_mul
          calc n < 10 ^ (k + 1) := hn
          _ = 10 * 10 ^ k := by ring
        have hdivfuel : n / 10 < fuel := by
          have : n / 10 < n := Nat.div_lt_self (by omega) (by omega)
          omega
        have := ih fuel (n / 10) hdiv hk1 hdivfuel
        simp only [List.length_append, List.length_cons, List.length_nil]
        omega

theorem natDigits_length_le {k n : Nat} (hn : n < 10 ^ k) (hk : 1 ≤ k) :
    (natDigits n).length ≤ k :=
  natDigitsAux_length_le k (n + 1) n hn hk (by omega)

theorem intRepr_nonneg {i : Int} (h : 0 ≤ i) : intRepr i = natDigits i.toNat := by
  unfold intRepr
  split
  · omega
  · rfl

theorem natDigits_of_lt_ten {n : Nat} (h : n < 10) :
    natDigits n = [Nat.digitChar n] := by
  simp [natDigits, natDigitsAux, h]

/- ### Field-serialization lengths -/

theorem patientNameStr_length (v : PyStr) : (patientNameStr v).length = 31 := by
  unfold patientNameStr
  rw [pyLjust_length, List.length_take]
  omega

theorem medicalRecordNumberStr_length (v : PyStr) :
    (medicalRecordNumberStr v).length = 13 := by
  unfold medicalRecordNumberStr
  rw [pyLjust_length, List.length_take]
  omega

theorem accountNumberStr_length (v : PyStr) : (accountNumberStr v).length = 17 := by
  unfold accountNumberStr
  rw [pyLjust_length, List.length_take]
  omega

theorem optionalInformationStr_length (v : PyStr) :
    (optionalInformationStr v).length = 72 := by
  unfold optionalInformationStr
  rw [pyLjust_length, List.length_take]
  omega

theorem dateStr_length {d : Date} (h : dateWfB d = true) : (dateStr d).length = 10 := by
  match d with
  | none => simp [dateStr]
  | some dv =>
    unfold dateWfB DateVal.wfB at h
    simp only [Bool.and_eq_true, decide_eq_true_eq] at h
    have hm : (natDigits dv.month).length ≤ 2 :=
      natDigits_length_le (by norm_num; omega) (by omega)
    have hd : (natDigits dv.day).length ≤ 2 :=
      natDigits_length_le (by norm_num; omega) (by omega)
    have hy : (natDigits dv.year).length ≤ 4 :=
      natDigits_length_le (by norm_num; omega) (by omega)
    simp only [dateStr, List.length_append, List.length_cons]
    rw [pyZfill_length_of_le hm, pyZfill_length_of_le hd, pyZfill_length_of_le hy]

theorem dischargeStatusStr_length {v : DischargeDispositionValue}
    (h : v.wfB = true) : (dischargeStatusStr v).length = 2 := by
  unfold DischargeDispositionValue.wfB at h
  simp only [decide_eq_true_eq] at h
  exact pyZfill_length_of_le (natDigits_length_le (by norm_num; omega) (by omega))

theorem primaryPayerStr_length {v : PayerValue} (h : v.wfB = true) :
    (primaryPayerStr v).length = 2 := by
  unfold PayerValue.wfB at h
  simp only [decide_eq_true_eq] at h
  exact pyZfill_length_of_le (natDigits_length_le (by norm_num; omega) (by omega))

theorem losStr_length {v : Int} (h0 : 0 ≤ v) (h1 : v ≤ 45291) :
    (losStr v).length = 5 := by
  unfold losStr
  rw [intRepr_nonneg h0]
  exact pyZfill_length_of_le (natDigits_length_le (by norm_num; omega) (by omega))

theorem ageStr_length {v : Int} (h0 : 0 ≤ v) (h1 : v ≤ 124) :
    (ageStr v).length = 3 := by
  unfold ageStr
  rw [intRepr_nonneg h0]
  exact pyZfill_length_of_le (natDigits_length_le (by norm_num; omega) (by omega))

theorem sexStr_length {v : SexValue} (h : v.wfB = true) : (sexStr v).length = 1 := by
  unfold SexValue.wfB at h
  simp only [decide_eq_true_eq] at h
  unfold sexStr
  rw [natDigits_of_lt_ten (by omega)]
  rfl

theorem diagnosisCodeStr_length {code : PyStr} (h : code.length ≤ 7) :
    (diagnosisCodeStr code).length = 7 :=
  pyLjust_length_of_le h

theorem diagnosisStr_length {d : Diagnosis} (h : d.code.length ≤ 7) :
    (diagnosisStr d).length = 8 := by
  simp only [diagnosisStr, List.length_append, List.length_cons, List.length_nil,
    diagnosisCodeStr_length h]

theorem procedureCodeStr_length {code : PyStr} (h : code.length ≤ 7) :
    (procedureCodeStr code).length = 7 := by
  unfold procedureCodeStr
  split
  · simp
  · exact pyLjust_length_of_le h

theorem flatten_map_length_const {α : Type} (f : α → PyStr) (c : Nat) :
    ∀ L : List α, (∀ x ∈ L, (f x).length = c) →
      ((L.map f).flatten).length = c * L.length := by
  intro L
  induction L with
  | nil => intro _; simp
  | cons a t ih =>
    intro h
    simp only [List.map_cons, List.flatten_cons, List.length_append, List.length_cons]
    rw [h a (by simp), ih (fun x hx => h x (by simp [hx]))]
    ring

theorem secondaryDiagnosesVal_length (l : List Diagnosis) :
    (secondaryDiagnosesVal l).length = 24 := by
  simp only [secondaryDiagnosesVal, List.length_append, List.length_take,
    List.length_replicate]
  omega

theorem secondaryDiagnosesStr_length {l : List Diagnosis}
    (h : ∀ x ∈ l, x.code.length ≤ 7) :
    (secondaryDiagnosesStr (secondaryDiagnosesVal l)).length = 192 := by
  unfold secondaryDiagnosesStr
  rw [flatten_map_length_const diagnosisStr 8 _ ?_, secondaryDiagnosesVal_length]
  · intro x hx
    rcases List.mem_append.mp hx with hx | hx
    · exact diagnosisStr_length (h x ((List.take_sublist 24 l).mem hx))
    · rw [List.eq_of_mem_replicate hx]
      exact diagnosisStr_length (by simp [defaultDiagnosis])

theorem secondaryProceduresVal_length (l : List PyStr) :
    (secondaryProceduresVal l).length = 24 := by
  simp only [secondaryProceduresVal, List.length_append, List.length_take,
    List.length_replicate]
  omega

theorem secondaryProceduresStr_length {l : List PyStr}
    (h : ∀ x ∈ l, x.length ≤ 7) :
    (secondaryProceduresStr (secondaryProceduresVal l)).length = 168 := by
  unfold secondaryProceduresStr
  rw [flatten_map_length_const procedureCodeStr 7 _ ?_, secondaryProceduresVal_length]
  · intro x hx
    rcases List.mem_append.mp hx with hx | hx
    · exact procedureCodeStr_length (h x ((List.take_sublist 24 l).mem hx))
    · rw [List.eq_of_mem_replicate hx]
      exact procedureCodeStr_length (by simp)

theorem procedureDatesVal_length (l : List Date) :
    (procedureDatesVal l).length = 25 := by
  simp only [procedureDatesVal, List.length_append, List.length_take,
    List.length_replicate]
  omega

theorem procedureDatesStr_length {l : List Date}
    (h : ∀ x ∈ l, dateWfB x = true) :
    (procedureDatesStr (procedureDatesVal l)).length = 250 := by
  unfold procedureDatesStr
  rw [flatten_map_length_const dateStr 10 _ ?_, procedureDatesVal_length]
  · intro x hx
    rcases List.mem_append.mp hx with hx | hx
    · exact dateStr_length (h x ((List.take_sublist 25 l).mem hx))
    · rw [List.eq_of_mem_replicate hx]
      exact dateStr_length (by simp [dateWfB])

/- ### Claim C1 -/

set_option maxRecDepth 10000 in
/-- C1 (corrected): the claim as stated is false.  `overlongCodeRecord` is an
`InputRecord` all of whose field values pass their constructors' validation
(`DiagnosisCode.__init__` only checks `isalnum`, not length), yet its
serialization is 836 bytes, not 835. -/
theorem inputRecord_overlong_code_breaks_835 :
    overlongCodeRecord.validB = true ∧
      (inputRecordStr overlongCodeRecord).length ≠ 835 := by
  constructor
  · decide
  · decide

/-- C1 (amended): for every `InputRecord` whose 21 field values pass their
constructors' validation AND whose diagnosis/procedure codes each fit their
7-byte slot (a bound the constructors do not check), the serialized record
`str(record)` has length exactly 835. -/
theorem inputRecordStr_length_eq_835 (r : InputRecord)
    (hv : r.validB = true) (hc : r.codesFitB = true) :
    (inputRecordStr r).length = 835 := by
  unfold InputRecord.validB at hv
  unfold InputRecord.codesFitB at hc
  simp only [Bool.and_eq_true, decide_eq_true_eq, List.all_eq_true] at hv hc
  obtain ⟨⟨⟨⟨⟨⟨⟨⟨⟨⟨⟨⟨⟨⟨⟨⟨⟨hpn, hmrn⟩, hacct⟩, had⟩, hdd⟩, hds⟩, hpp⟩,
    hlos⟩, hbd⟩, hage⟩, hsex⟩, hadx⟩, hpdx⟩, hsdx⟩, hpproc⟩, hsproc⟩,
    hpdates⟩, hhac⟩ := hv
  obtain ⟨⟨⟨⟨hcadx, hcpdx⟩, hcsdx⟩, hcpproc⟩, hcsproc⟩ := hc
  simp only [inputRecordStr, List.length_append]
  rw [patientNameStr_length, medicalRecordNumberStr_length, accountNumberStr_length,
    dateStr_length had, dateStr_length hdd, dischargeStatusStr_length hds,
    primaryPayerStr_length hpp, losStr_length hlos.1 hlos.2, dateStr_length hbd,
    ageStr_length hage.1 hage.2, sexStr_length hsex]
  show 31 + 13 + 17 + 10 + 10 + 2 + 2 + 5 + 10 + 3 + 1
      + (admitDiagnosisStr r.admit_diagnosis).length
      + (principalDiagnosisStr r.principal_diagnosis).length
      + (secondaryDiagnosesStr (secondaryDiagnosesVal r.secondary_diagnoses)).length
      + (principalProcedureStr r.principal_procedure).length
      + (secondaryProceduresStr (secondaryProceduresVal r.secondary_procedures)).length
      + (procedureDatesStr (procedureDatesVal r.procedure_date)).length
      + (applyHACLogicStr r.apply_hac_logic).length
      + unusedStr.length
      + (optionalInformationStr r.optional_information).length
      + fillerStr.length = 835
  rw [show admitDiagnosisStr r.admit_diagnosis = diagnosisCodeStr r.admit_diagnosis
      from rfl,
    diagnosisCodeStr_length hcadx,
    show principalDiagnosisStr r.principal_diagnosis
        = diagnosisStr r.principal_diagnosis from rfl,
    diagnosisStr_length hcpdx,
    secondaryDiagnosesStr_length (fun x hx => (hcsdx x hx)),
    show principalProcedureStr r.principal_procedure
        = procedureCodeStr r.principal_procedure from rfl,
    procedureCodeStr_length hcpproc,
    secondaryProceduresStr_length (fun x hx => (hcsproc x hx)),
    procedureDatesStr_length (fun x hx => (hpdates x hx)),
    optionalInformationStr_length]
  rfl

set_option maxRecDepth 10000 in
/-- C1 witness: the `tests/conftest.py` example record satisfies both
hypotheses and serializes to exactly 835 bytes. -/
theorem inputRecordStr_length_eq_835_witness :
    exampleRecord.validB = true ∧ exampleRecord.codesFitB = true ∧
      (inputRecordStr exampleRecord).length = 835 :=
  ⟨by decide, by decide,
    inputRecordStr_length_eq_835 exampleRecord (by decide) (by decide)⟩

/- ### Claim C2 -/

set_option maxRecDepth 10000 in
/-- C2 (code bug): `Batch.__str__` joins member records with `"\n"` (both in
`src/batch.py` and `src/cms_drg_grouper_interface/batch.py`), so a batch of
two records whose individual serializations are 835 bytes each serializes to
1671 characters, not the 1670 the claim (and `tests/batch.py`'s
`assert len(str(batch)) == 835 * 2`) requires. -/
theorem batchStr_two_records_length_1671 :
    (inputRecordStr exampleRecord).length = 835 ∧
      (batchStr [exampleRecord, exampleRecord]).length = 1671 ∧
      (batchStr [exampleRecord, exampleRecord]).length ≠ 1670 := by
  refine ⟨by decide, by decide, by decide⟩

/- ### Claim C3 -/

set_option maxRecDepth 2000 in
/-- C3 (corrected): the claim as stated is false.  `blankSlot3Group` is a
192-byte secondary-diagnosis group whose sub-slot at position 3 is the
all-blank sentinel, yet `SecondaryDiagnoses.parse_field_string` returns 24
decoded slots, not 3: its loop has no break. -/
theorem secondaryDiagnosesParse_no_break_counterexample :
    blankSlot3Group.length = 192 ∧
      (secondaryDiagnosesParse blankSlot3Group).length = 24 ∧
      (secondaryDiagnosesParse blankSlot3Group).length ≠ 3 := by
  refine ⟨by decide, by decide, by decide⟩

/-- C3 (amended): decoding any 192-byte secondary-diagnosis group yields a
fixed 24-element result, one per 8-byte slot, regardless of any sentinel
sub-slots: `SecondaryDiagnoses.parse_field_string` never stops early. -/
theorem secondaryDiagnosesParse_length_24 (s : PyStr) (_h : s.length = 192) :
    (secondaryDiagnosesParse s).length = 24 := by
  simp [secondaryDiagnosesParse]

set_option maxRecDepth 2000 in
/-- C3 witness: the amended theorem applied to the concrete group. -/
theorem secondaryDiagnosesParse_length_24_witness :
    blankSlot3Group.length = 192 ∧
      (secondaryDiagnosesParse blankSlot3Group).length = 24 :=
  ⟨by decide, secondaryDiagnosesParse_length_24 blankSlot3Group (by decide)⟩

/- ### Claim C4 -/

/-- C4 (corrected): the claim as stated is false.  `"A B"` consists solely of
alphanumeric characters and a space, yet `AccountNumber("A B")` and
`MedicalRecordNumber("A B")` both raise: their constructors use
`str.isalnum()`, which rejects spaces. -/
theorem accountNumber_space_rejected_counterexample :
    is_alphanumeric_or_space ("A B".toList) = true ∧
      mkAccountNumber ("A B".toList) = none ∧
      mkMedicalRecordNumber ("A B".toList) = none := by
  refine ⟨by decide, by decide, by decide⟩

/-- C4 (amended): `PatientName` accepts exactly the strings whose characters
are all alphanumeric or whitespace (the empty string included), while
`MedicalRecordNumber` and `AccountNumber` accept exactly the nonempty
all-alphanumeric strings (spaces and the empty string rejected); every
accepted value is stored unmodified, never stripped. -/
theorem alnum_field_constructors_characterized (s : PyStr) :
    ((mkPatientName s).isSome ↔ is_alphanumeric_or_space s = true)
      ∧ ((mkMedicalRecordNumber s).isSome ↔ pyStrIsAlnum s = true)
      ∧ ((mkAccountNumber s).isSome ↔ pyStrIsAlnum s = true)
      ∧ (mkPatientName s = some s ∨ mkPatientName s = none)
      ∧ (mkMedicalRecordNumber s = some s ∨ mkMedicalRecordNumber s = none)
      ∧ (mkAccountNumber s = some s ∨ mkAccountNumber s = none) := by
  unfold mkPatientName mkMedicalRecordNumber mkAccountNumber
  by_cases h1 : is_alphanumeric_or_space s = true <;>
    by_cases h2 : pyStrIsAlnum s = true <;>
      simp [h1, h2]

/- ### Claim C5 -/

/-- C5 (confirmed; the parser is spec-modelled since `Date.from_string` is
absent from the source tree): parsing `"08/01/2022"` yields the date whose
formatting is again `"08/01/2022"`; a fully-blank 10-byte input parses to
the absent date without error; a non-`mm/dd/yyyy` string fails; and the
default (absent) `Date` formats to exactly 10 spaces. -/
theorem date_parse_format_roundtrip :
    dateFromString ("08/01/2022".toList) = some (some ⟨8, 1, 2022⟩)
      ∧ dateStr (some ⟨8, 1, 2022⟩) = "08/01/2022".toList
      ∧ dateFromString (List.replicate 10 ' ') = some none
      ∧ dateFromString ("2022-08-01".toList) = none
      ∧ dateStr none = List.replicate 10 ' ' := by
  refine ⟨by decide, by decide, by decide, by decide, by decide⟩

/- ### Claim C6 -/

/-- C6 (confirmed): `LOS(n)` succeeds exactly when `0 ≤ n ≤ 45291`;
`LOS(45292)` fails, `LOS(45291)` succeeds and its 5-byte zero-filled
serialization is `"45291"`. -/
theorem los_bounds_characterized :
    (∀ n : Int, (mkLOS n).isSome ↔ (0 ≤ n ∧ n ≤ 45291))
      ∧ mkLOS 45292 = none
      ∧ mkLOS 45291 = some 45291
      ∧ losStr 45291 = "45291".toList := by
  refine ⟨?_, by decide, by decide, by decide⟩
  intro n
  unfold mkLOS
  split
  · rename_i h
    simp only [Bool.or_eq_true, decide_eq_true_eq] at h
    simp only [Option.isSome_none, Bool.false_eq_true, false_iff]
    omega
  · rename_i h
    simp only [Bool.or_eq_true, decide_eq_true_eq] at h
    simp only [Option.isSome_some, true_iff]
    omega

/- ### Claim C7 -/

/-- C7 (corrected): the claim as stated is false.  `CostWeight.parse_field_string`
is `float(field_str)`: the raw digit string `"0012345"` decodes to the
literal value 12345, not to 1.2345 — no implicit decimal-point convention is
applied. -/
theorem costWeight_no_implicit_decimal_counterexample :
    costWeightParse ("0012345".toList) = some 12345
      ∧ (12345 : ℚ) ≠ 12345 / 10000 := by
  constructor
  · simp only [costWeightParse, pyFloatParse]
    rw [(by decide : pyFloatScan ("0012345".toList) = some (12345, 0))]
    simp [ratOfScan]
  · norm_num

/-- C7 (amended): the decoder reads the literal decimal text of the 7-byte
field.  Per the source docstring the field is displayed as 2 digits, an
explicit decimal point, and 4 digits, and such a string (`"12.3456"`)
decodes to its displayed value 12.3456; an all-digit string (`"0012345"`)
decodes to its literal integer reading 12345. -/
theorem costWeight_parses_literal_decimal :
    costWeightParse ("12.3456".toList) = some (123456 / 10000 : ℚ)
      ∧ costWeightParse ("0012345".toList) = some (12345 : ℚ) := by
  constructor
  · simp only [costWeightParse, pyFloatParse]
    rw [(by decide : pyFloatScan ("12.3456".toList) = some (123456, 4))]
    simp [ratOfScan]
    norm_num
  · simp only [costWeightParse, pyFloatParse]
    rw [(by decide : pyFloatScan ("0012345".toList) = some (12345, 0))]
    simp [ratOfScan]

/- ### Claim C8 -/

/-- C8 (confirmed): for every accepted input string (all characters
alphanumeric or space) of any length, `PatientName`'s serialization is
exactly 31 bytes — longer inputs are silently truncated to their first 31
characters (the constructor imposes no length bound), shorter ones are
left-justified and blank-filled — and `AccountNumber` and
`OptionalInformation` truncate the same way at 17 and 72 bytes. -/
theorem text_fields_truncate_to_width (s : PyStr)
    (h : is_alphanumeric_or_space s = true) : truncationSpec s := by
  have hmk : mkPatientName s = some s := by simp [mkPatientName, h]
  have htake : ∀ w : Nat, pyLjust (s.take w) w
      = s.take w ++ List.replicate (w - s.length) ' ' := by
    intro w
    unfold pyLjust
    rw [List.length_take]
    congr 2
    omega
  refine ⟨hmk, patientNameStr_length s, htake 31, accountNumberStr_length s,
    htake 17, optionalInformationStr_length s, htake 72⟩

/-- C8 witness: a 35-character alphanumeric name is accepted and truncated
to its first 31 characters. -/
theorem text_fields_truncate_to_width_witness :
    is_alphanumeric_or_space (List.replicate 35 'A') = true
      ∧ truncationSpec (List.replicate 35 'A') :=
  ⟨by decide, text_fields_truncate_to_width (List.replicate 35 'A') (by decide)⟩

/- ### Claim C9 -/

theorem parseFieldSubstringAux_ne_nil {α : Type} (substr : PyStr)
    (field_len : Nat) (break_values : List PyStr) (value_literal : PyStr → α) :
    ∀ (k position : Nat) (acc : List α), acc ≠ [] →
      parseFieldSubstringAux substr field_len break_values value_literal
        k position acc ≠ [] := by
  intro k
  induction k with
  | zero => intro position acc hacc; exact hacc
  | succ k ih =>
    intro position acc hacc
    unfold parseFieldSubstringAux
    by_cases hmem : pySlice substr position (position + field_len) ∈ break_values
    · simp only [hmem, if_true]
      split
      · simp_all
      · exact hacc
    · simp only [hmem, if_false]
      exact ih _ _ (by simp)

/-- C9 (confirmed): whenever the first fixed-width sub-slot of a
repeating-group substring is one of the break values,
`parse_field_substring` returns the one-element list holding that sentinel
converted by the group's literal constructor; and for `n_fields ≥ 1` the
result is never empty. -/
theorem parse_field_substring_first_break {α : Type} (value_literal : PyStr → α)
    (substr : PyStr) (n_fields field_len : Nat) (break_values : List PyStr)
    (h : 1 ≤ n_fields) :
    (pySlice substr 0 field_len ∈ break_values →
        parse_field_substring substr n_fields field_len break_values value_literal
          = [value_literal (pySlice substr 0 field_len)])
      ∧ parse_field_substring substr n_fields field_len break_values value_literal
          ≠ [] := by
  obtain ⟨k, rfl⟩ : ∃ k, n_fields = k + 1 := ⟨n_fields - 1, by omega⟩
  unfold parse_field_substring
  unfold parseFieldSubstringAux
  simp only [Nat.zero_add, List.nil_append, List.isEmpty_nil, if_true]
  by_cases hmem : pySlice substr 0 field_len ∈ break_values
  · simp [hmem]
  · simp only [hmem, if_false]
    refine ⟨fun hc => hc.elim, ?_⟩
    exact parseFieldSubstringAux_ne_nil substr field_len break_values
      value_literal k field_len [value_literal (pySlice substr 0 field_len)]
      (by simp)

/-- C9 witness: the instantiation used by
`PrincipalDiagnosisEditReturnFlag.parse_field_string` (four 2-byte flags,
break value `"00"`), on a group whose first slot is the break value. -/
theorem parse_field_substring_first_break_witness :
    (parse_field_substring ("00150209".toList) 4 2 [("00".toList)]
        (fun v => v) = [("00".toList)])
      ∧ parse_field_substring ("00150209".toList) 4 2 [("00".toList)]
          (fun v => v) ≠ [] :=
  ⟨(parse_field_substring_first_break (fun v => v) ("00150209".toList) 4 2
      [("00".toList)] (by decide)).1 (by decide),
    (parse_field_substring_first_break (fun v => v) ("00150209".toList) 4 2
      [("00".toList)] (by decide)).2⟩

/- ### Claim C10 -/

/-- C10 (confirmed): constructing `MedicalRecordNumber` or `AccountNumber`
from the default empty string raises (`"".isalnum()` is false) — neither has
a representable all-blank state — while `PatientName` accepts the empty
string and serializes it as 31 blanks. -/
theorem empty_string_field_defaults :
    mkMedicalRecordNumber [] = none
      ∧ mkAccountNumber [] = none
      ∧ mkPatientName [] = some []
      ∧ patientNameStr [] = List.replicate 31 ' ' := by
  refine ⟨by decide, by decide, by decide, by decide⟩

end CMSDRG
